import Mathlib

/-!
Shallow embedding of the SyncWatch reconciliation engine
(`src/sync_engine.py`) and verification of its specification.

Modelling conventions:
* Calendar dates (`datetime.date`, compared only with `<`) are embedded
  as `Int` ordinal days.
* Python `dict`/`set` values are embedded as association lists / lists;
  Python `set(...)` iteration is modelled with `List.dedup`.
* Alerts are modelled as an inductive datatype recording which alert
  call fired and its identifying data, not the formatted message text
  (the Notifier channels are out of scope per the spec, §1/§6).
* External effects (HTTP fetch, Google Calendar API, Telegram/email)
  are embedded as explicit inputs/outputs: the fetch result is an
  `Except` value, the mirror calendar is an explicit event-list state.
-/

namespace SyncWatch

/-- One calendar event normalized from a feed, as built by `fetch_ical`
(line 199 of the source): `{"uid": ..., "summary": ..., "start": ..., "end": ...}`. -/
structure Booking where
  uid : String
  summary : String
  start : Int
  «end» : Int
  deriving DecidableEq, Repr

/-- One conflict record as built by `find_conflicts` (line 214):
`{"airbnb": a, "booking": b}`. -/
structure Conflict where
  airbnb : Booking
  booking : Booking
  deriving DecidableEq, Repr

/-- Per-property snapshot record, as returned by `sync_apartment`
(lines 311-316) and stored under the property name in the state file.
`last_checked` (an ISO timestamp string in the source) is embedded as an
abstract `Nat` clock value. -/
structure Snapshot where
  airbnb_uids : List String
  booking_uids : List String
  known_conflicts : List String
  last_checked : Nat
  deriving DecidableEq, Repr

/-- The persisted state file: a mapping from property name to snapshot
(`syncwatch_state.json`, a JSON object keyed by apartment name). -/
abbrev StateMap := List (String × Snapshot)

/-- `state.get(name, {})` together with the field defaults
`prev.get("airbnb_uids", [])`, `prev.get("booking_uids", [])`,
`prev.get("known_conflicts", [])` (lines 285-288). -/
def getSnapshot (state : StateMap) (name : String) : Snapshot :=
  match state.find? (fun p => p.1 == name) with
  | some p => p.2
  | none => { airbnb_uids := [], booking_uids := [], known_conflicts := [], last_checked := 0 }

/-- Python dict assignment `state[name] = snap` (line 324): replace the
entry if the key is present, otherwise append it. -/
def setSnapshot (state : StateMap) (name : String) (snap : Snapshot) : StateMap :=
  if state.any (fun p => p.1 == name) then
    state.map (fun p => if p.1 == name then (name, snap) else p)
  else
    state ++ [(name, snap)]

/-- An alert call fired during a cycle.  Each constructor corresponds to
one `alert(...)` / `send_telegram(...)` call site in the source and
records the data identifying that call (property name plus, where the
call site is driven by a loop, the loop variable); the formatted message
text is not modelled.  In particular `cancelAirbnb`/`cancelBookingCom`
record the uid the cancellation loop is iterating over (lines 298-302),
even though the human-readable message omits it. -/
inductive Alert where
  | newAirbnb (name : String) (b : Booking)
  | newBookingCom (name : String) (b : Booking)
  | cancelAirbnb (name : String) (uid : String)
  | cancelBookingCom (name : String) (uid : String)
  | doubleBooking (name : String) (c : Conflict)
  | feedBroken (name : String) (platform : String)
  deriving DecidableEq, Repr

/-- `dates_overlap` (lines 210-211):
`return a_start < b_end and b_start < a_end`. -/
def dates_overlap (a_start a_end b_start b_end : Int) : Bool :=
  decide (a_start < b_end) && decide (b_start < a_end)

/-- `find_conflicts` (lines 213-214):
`[{"airbnb": a, "booking": b} for a in ab for b in bk if dates_overlap(...)]`. -/
def find_conflicts (ab bk : List Booking) : List Conflict :=
  ab.flatMap (fun a =>
    (bk.filter (fun b => dates_overlap a.start a.«end» b.start b.«end»)).map
      (fun b => { airbnb := a, booking := b }))

/-- The conflict identity string `f"{c['airbnb']['uid']}_{c['booking']['uid']}"`
(lines 307 and 314). -/
def conflictKey (c : Conflict) : String :=
  c.airbnb.uid ++ "_" ++ c.booking.uid

/-- The UID written for a booking by `generate_ical` (line 223):
`b['uid'] or 'sw-' + str(b['start'])` — the raw uid when non-empty
(truthy), otherwise a fallback derived from the start date. -/
def ical_uid (b : Booking) : String :=
  if b.uid = "" then "sw-" ++ toString b.start else b.uid

/-- `fetch_ical` (lines 184-204), with the network/HTTP/parse outcome made
an explicit input.  All failure points (`requests.get`, `raise_for_status`,
`Calendar.from_ical`) precede any append to `bookings`, so on failure the
function returns the empty list; it additionally fires the "iCal URL
expired or broken" Telegram alert when both `apt_name` and `platform` are
truthy (non-empty).  Returns the booking list and the alerts fired. -/
def fetch_ical (result : Except String (List Booking)) (apt_name platform : String) :
    List Booking × List Alert :=
  match result with
  | Except.ok bs => (bs, [])
  | Except.error _ =>
      ([], if apt_name ≠ "" ∧ platform ≠ "" then [Alert.feedBroken apt_name platform] else [])

/-- One event visible in a Google mirror calendar, reduced to the fields
the source reads and writes (`summary`, `start.date`, `end.date`); the
`description` field (a "Last synced" timestamp) and the opaque event id
are not part of the visible booking data and are omitted. -/
structure CalEvent where
  summary : String
  start : Int
  «end» : Int
  deriving DecidableEq, Repr

/-- The `[SW]` substring check `"[SW]" in e.get("summary", "")` (line 160),
via an explicit substring scan on the character list. -/
def listStartsWith : List Char → List Char → Bool
  | [], _ => true
  | _ :: _, [] => false
  | a :: as, b :: bs => a == b && listStartsWith as bs

/-- Substring containment on character lists (Python `in` on strings). -/
def listContainsSeq (needle : List Char) : List Char → Bool
  | [] => needle.isEmpty
  | c :: cs => listStartsWith needle (c :: cs) || listContainsSeq needle cs

/-- Whether a summary carries the SyncWatch tag: `"[SW]" in summary`. -/
def hasSWTag (s : String) : Bool :=
  listContainsSeq "[SW]".data s.data

/-- The event inserted for a booking by `sync_to_google_calendar`
(lines 167-174): summary `f"{b['summary']} [SW]"` with the booking's dates. -/
def mkEvent (b : Booking) : CalEvent :=
  { summary := b.summary ++ " [SW]", start := b.start, «end» := b.«end» }

/-- `sync_to_google_calendar` (lines 149-178) acting on the mirror
calendar's event set: first delete every event whose summary contains
`[SW]` (lines 155-164), then insert one tagged event per booking
(lines 166-175).  The calendar state is the explicit input and output. -/
def sync_to_google_calendar (cal : List CalEvent) (all_bookings : List Booking) :
    List CalEvent :=
  (cal.filter (fun e => !(hasSWTag e.summary))) ++ all_bookings.map mkEvent

/-- The new-bookings selection for Airbnb (line 291):
`[b for b in ab if b["uid"] not in prev_ab]`. -/
def new_from_A (ab : List Booking) (prev_ab : List String) : List Booking :=
  ab.filter (fun b => !(prev_ab.contains b.uid))

/-- The new-bookings selection for Booking.com (line 294):
`[b for b in bk if b["uid"] not in prev_bk]`. -/
def new_from_B (bk : List Booking) (prev_bk : List String) : List Booking :=
  bk.filter (fun b => !(prev_bk.contains b.uid))

/-- The cancelled-identities selection for Airbnb (line 298):
`set(prev_ab) - {b["uid"] for b in ab}`; `set(...)` is modelled by
`dedup`, so the result enumerates each cancelled uid once. -/
def cancelled_from_A (prev_ab : List String) (ab : List Booking) : List String :=
  prev_ab.dedup.filter (fun u => !((ab.map Booking.uid).contains u))

/-- The cancelled-identities selection for Booking.com (line 301). -/
def cancelled_from_B (prev_bk : List String) (bk : List Booking) : List String :=
  prev_bk.dedup.filter (fun u => !((bk.map Booking.uid).contains u))

/-- The diff/alert/persist core of `sync_apartment` (lines 285-316), after
the two feeds have been fetched: reads the prior snapshot, fires the
new-booking, cancellation and (deduplicated) double-booking alerts in
source order, and returns the snapshot for this cycle.  The iCal-file and
Google-calendar writes (lines 279-283) are modelled separately (they do
not read or write the snapshot). -/
def sync_apartment (name : String) (state : StateMap) (ab bk : List Booking) (now : Nat) :
    List Alert × Snapshot :=
  let prev := getSnapshot state name
  let prev_ab := prev.airbnb_uids
  let prev_bk := prev.booking_uids
  let known := prev.known_conflicts
  let conflicts := find_conflicts ab bk
  (((new_from_A ab prev_ab).map (fun b => Alert.newAirbnb name b) ++
    (new_from_B bk prev_bk).map (fun b => Alert.newBookingCom name b) ++
    (cancelled_from_A prev_ab ab).map (fun u => Alert.cancelAirbnb name u) ++
    (cancelled_from_B prev_bk bk).map (fun u => Alert.cancelBookingCom name u) ++
    (conflicts.filter (fun c => !(known.contains (conflictKey c)))).map
      (fun c => Alert.doubleBooking name c)),
   { airbnb_uids := ab.map Booking.uid,
     booking_uids := bk.map Booking.uid,
     known_conflicts := conflicts.map conflictKey,
     last_checked := now })

/-- The whole of `sync_apartment` (lines 271-316) with the two fetch
outcomes and the two mirror calendars' prior contents as explicit inputs:
fetch Airbnb, fetch Booking.com (lines 275-276), mirror the Booking.com
set into the `airbnb_cal_id` calendar and the Airbnb set into the
`google_cal_id` calendar (lines 281-283), then run the diff/alert/persist
core.  Returns (alerts in firing order, snapshot, the two updated
calendars). -/
def sync_apartment_full (name : String) (state : StateMap)
    (abResult bkResult : Except String (List Booking))
    (airbnbCal googleCal : List CalEvent) (now : Nat) :
    List Alert × Snapshot × List CalEvent × List CalEvent :=
  let abF := fetch_ical abResult name "Airbnb"
  let bkF := fetch_ical bkResult name "Booking.com"
  let core := sync_apartment name state abF.1 bkF.1 now
  (abF.2 ++ bkF.2 ++ core.1, core.2,
   sync_to_google_calendar airbnbCal bkF.1,
   sync_to_google_calendar googleCal abF.1)

/-- One configured property's cycle as the sweep sees it: a function of
the property's prior snapshot that either returns (alerts, new snapshot)
or raises (`Except.error`).  Abstracting the cycle body this way lets the
sweep-level control flow of `run_sync` be stated for every possible
per-property behaviour. -/
abbrev PropCycle := String × (Snapshot → Except String (List Alert × Snapshot))

/-- The sweep loop of `run_sync` (lines 322-325):
`state = load_state(); for apt in APARTMENTS: state[apt["name"]] =
sync_apartment(apt, state); save_state(state)`.  There is no per-property
exception handler: an `Except.error` from one cycle propagates out of the
loop immediately, so later properties do not run and `save_state` is not
reached.  Returns the alerts fired by the completed cycles and either the
final in-memory state (to be saved) or the escaping error. -/
def run_sync_core : List PropCycle → StateMap → List Alert × Except String StateMap
  | [], state => ([], Except.ok state)
  | (name, f) :: rest, state =>
    match f (getSnapshot state name) with
    | Except.error e => ([], Except.error e)
    | Except.ok (als, snap) =>
      let r := run_sync_core rest (setSnapshot state name snap)
      (als ++ r.1, r.2)

/-- The persisted state file after one `sync_loop` iteration (lines
328-334): if `run_sync` completes, `save_state(state)` wrote the new
state; if it raised, the `except` in `sync_loop` swallowed the error and
the file is untouched. -/
def persistedAfter (cycles : List PropCycle) (state : StateMap) : StateMap :=
  match (run_sync_core cycles state).2 with
  | Except.ok state' => state'
  | Except.error _ => state

/-- The alerts emitted during one sweep (by the cycles that ran to
completion before any escaping exception). -/
def sweepAlerts (cycles : List PropCycle) (state : StateMap) : List Alert :=
  (run_sync_core cycles state).1

/-- Two conflicts with distinct ordered uid pairs whose identity strings
collide (used as the C5 counterexample input). -/
def conflictCex1 : Conflict := ⟨⟨"a_b", "x", 0, 2⟩, ⟨"c", "y", 1, 3⟩⟩

def conflictCex2 : Conflict := ⟨⟨"a", "x", 0, 2⟩, ⟨"b_c", "y", 1, 3⟩⟩

/-- Concrete bookings and snapshot used by witness instantiations
(spec Scenario 2: `a1` from Airbnb overlaps `b1` from Booking.com). -/
def wA1 : Booking := ⟨"a1", "G", 0, 4⟩

def wB1 : Booking := ⟨"b1", "H", 2, 6⟩

def wSnapKnown : Snapshot := ⟨["a1"], ["b1"], ["a1_b1"], 0⟩

def wC1 : Conflict := ⟨wA1, wB1⟩

/-- Concrete snapshot map entry used by witness instantiations
(spec Scenario 3: one previously seen Airbnb uid). -/
def wSnapA1 : Snapshot := ⟨["a1"], [], [], 0⟩

/-- A property cycle that raises, and one that succeeds with an alert and
a fresh snapshot — concrete sweep inputs for the scheduler claims. -/
def wCycleFail : PropCycle := ("p1", fun _ => Except.error "boom")

def wSnapB : Snapshot := ⟨["x"], [], [], 1⟩

def wCycleOkB : PropCycle := ("p2", fun _ => Except.ok ([Alert.newAirbnb "p2" wA1], wSnapB))

def wCyclePre : PropCycle := ("a", fun _ => Except.ok ([], wSnapA1))

/-! ### General helper lemmas -/

theorem contains_iff_mem (l : List String) (a : String) : l.contains a = true ↔ a ∈ l :=
  List.elem_iff

/-- If a separator character occurs in neither left part, splitting at it
is unambiguous. -/
theorem append_sep_inj {sep : Char} {l l' r r' : List Char}
    (h : sep ∉ l) (h' : sep ∉ l')
    (heq : l ++ sep :: r = l' ++ sep :: r') : l = l' ∧ r = r' := by
  induction l generalizing l' with
  | nil =>
    cases l' with
    | nil => simpa using heq
    | cons c cs =>
      simp only [List.nil_append, List.cons_append] at heq
      have hc : sep = c := (List.cons.inj heq).1
      exact absurd (hc ▸ List.mem_cons_self c cs) h'
  | cons a as ih =>
    cases l' with
    | nil =>
      simp only [List.cons_append, List.nil_append] at heq
      have hc : a = sep := (List.cons.inj heq).1
      exact absurd (hc ▸ List.mem_cons_self a as) (fun hm => h hm)
    | cons c cs =>
      simp only [List.cons_append] at heq
      have hac : a = c := (List.cons.inj heq).1
      have htail := (List.cons.inj heq).2
      have has : sep ∉ as := fun hm => h (List.mem_cons_of_mem _ hm)
      have hcs : sep ∉ cs := fun hm => h' (List.mem_cons_of_mem _ hm)
      obtain ⟨h1, h2⟩ := ih has hcs htail
      exact ⟨by rw [hac, h1], h2⟩

theorem listStartsWith_self_append (l t : List Char) : listStartsWith l (l ++ t) = true := by
  induction l with
  | nil => rfl
  | cons a as ih => simp [listStartsWith, ih]

theorem listContainsSeq_append_left (n pre t : List Char)
    (h : listContainsSeq n t = true) : listContainsSeq n (pre ++ t) = true := by
  induction pre with
  | nil => simpa using h
  | cons c cs ih => simp [listContainsSeq, ih]

theorem listContainsSeq_self_append (n t : List Char) : listContainsSeq n (n ++ t) = true := by
  cases n with
  | nil => cases t <;> simp [listContainsSeq, listStartsWith]
  | cons c cs =>
    show listContainsSeq (c :: cs) (c :: (cs ++ t)) = true
    simp only [listContainsSeq, Bool.or_eq_true]
    exact Or.inl (listStartsWith_self_append (c :: cs) t)

/-- Every event inserted by the mirror sync carries the `[SW]` tag. -/
theorem hasSWTag_mkEvent (b : Booking) : hasSWTag (mkEvent b).summary = true := by
  show hasSWTag (b.summary ++ " [SW]") = true
  unfold hasSWTag
  have h : (b.summary ++ " [SW]").data = (b.summary.data ++ [' ']) ++ ("[SW]".data ++ []) := by
    rw [String.data_append]
    simp
  rw [h]
  exact listContainsSeq_append_left _ _ _ (listContainsSeq_self_append _ _)

theorem filter_untagged_tagged (cal : List CalEvent) :
    (cal.filter (fun e => !(hasSWTag e.summary))).filter (fun e => hasSWTag e.summary) = [] := by
  rw [List.filter_filter]
  refine List.filter_eq_nil_iff.mpr (fun e _ => ?_)
  cases h : hasSWTag e.summary <;> simp [h]

theorem filter_untagged_idem (cal : List CalEvent) :
    (cal.filter (fun e => !(hasSWTag e.summary))).filter (fun e => !(hasSWTag e.summary)) =
      cal.filter (fun e => !(hasSWTag e.summary)) := by
  rw [List.filter_filter]
  refine List.filter_congr (fun e _ => ?_) -- pointwise: !t && !t = !t
  cases h : hasSWTag e.summary <;> simp [h]

theorem contains_eq_false_iff (l : List String) (a : String) :
    l.contains a = false ↔ a ∉ l := by
  rw [← Bool.not_eq_true, not_iff_not]
  exact contains_iff_mem l a

/-- Characterization of the double-booking alerts fired by one cycle. -/
theorem doubleBooking_mem_iff (name : String) (state : StateMap) (ab bk : List Booking)
    (now : Nat) (c : Conflict) :
    Alert.doubleBooking name c ∈ (sync_apartment name state ab bk now).1 ↔
      c ∈ find_conflicts ab bk ∧
        conflictKey c ∉ (getSnapshot state name).known_conflicts := by
  simp [sync_apartment, new_from_A, new_from_B, cancelled_from_A, cancelled_from_B,
    List.mem_filter, List.mem_map, List.mem_append, List.mem_dedup,
    contains_iff_mem, contains_eq_false_iff]

/-! ### C7 — interval-overlap algebra -/

/-- C7 counterexample: the claim states that identical ranges always
overlap, but `dates_overlap` on the identical (empty) ranges
`(0,0)` and `(0,0)` returns `false`. -/
theorem dates_overlap_identical_empty : dates_overlap 0 0 0 0 = false := by decide

/-- C7 (amended): `dates_overlap` is symmetric; adjacent ranges
(`e1 = s2`) never overlap; and identical ranges overlap provided the
range is non-empty (`s1 < e1`). -/
theorem dates_overlap_algebra (s1 e1 s2 e2 : Int) :
    dates_overlap s1 e1 s2 e2 = dates_overlap s2 e2 s1 e1 ∧
    (e1 = s2 → dates_overlap s1 e1 s2 e2 = false) ∧
    (s1 < e1 → dates_overlap s1 e1 s1 e1 = true) := by
  refine ⟨?_, ?_, ?_⟩
  · show (decide (s1 < e2) && decide (s2 < e1)) = (decide (s2 < e1) && decide (s1 < e2))
    exact Bool.and_comm _ _
  · intro h
    subst h
    simp [dates_overlap]
  · intro h
    simp [dates_overlap, h]

/-- C7 witness: the amended theorem applied at concrete ranges,
discharging both hypotheses. -/
theorem dates_overlap_algebra_witness :
    dates_overlap 0 1 1 2 = false ∧ dates_overlap 0 1 0 1 = true :=
  ⟨(dates_overlap_algebra 0 1 1 2).2.1 rfl,
   (dates_overlap_algebra 0 1 0 1).2.2 (by decide)⟩

/-! ### C5 — conflict identity -/

/-- C5 counterexample: the underscore-joined identity is not injective on
ordered uid pairs — the distinct pairs `("a_b","c")` and `("a","b_c")`
both yield the key `"a_b_c"`. -/
theorem conflictKey_collision :
    conflictKey conflictCex1 = conflictKey conflictCex2 ∧
    ¬ (conflictCex1.airbnb.uid = conflictCex2.airbnb.uid ∧
       conflictCex1.booking.uid = conflictCex2.booking.uid) := by
  decide

/-- C5 (amended): the conflict identity is a deterministic function of the
ordered pair of uids (equal pairs always give equal keys), and it is
injective as long as the source-A uids contain no underscore; without that
restriction distinct pairs can collide. -/
theorem conflictKey_pair_function :
    (∀ c c' : Conflict, c.airbnb.uid = c'.airbnb.uid → c.booking.uid = c'.booking.uid →
      conflictKey c = conflictKey c') ∧
    (∀ c c' : Conflict, '_' ∉ c.airbnb.uid.data → '_' ∉ c'.airbnb.uid.data →
      conflictKey c = conflictKey c' →
      c.airbnb.uid = c'.airbnb.uid ∧ c.booking.uid = c'.booking.uid) := by
  constructor
  · intro c c' h1 h2
    unfold conflictKey
    rw [h1, h2]
  · intro c c' h h' heq
    have hd := congrArg String.data heq
    simp only [conflictKey, String.data_append] at hd
    simp only [List.append_assoc, List.singleton_append] at hd
    obtain ⟨h1, h2⟩ := append_sep_inj h h' hd
    exact ⟨String.ext h1, String.ext h2⟩

/-- C5 witness: the amended theorem's injective direction applied at two
concrete conflicts with underscore-free source-A uids and equal keys. -/
theorem conflictKey_pair_function_witness :
    (⟨⟨"a", "x", 0, 2⟩, ⟨"b", "y", 1, 3⟩⟩ : Conflict).airbnb.uid =
      (⟨⟨"a", "z", 5, 6⟩, ⟨"b", "w", 5, 6⟩⟩ : Conflict).airbnb.uid ∧
    (⟨⟨"a", "x", 0, 2⟩, ⟨"b", "y", 1, 3⟩⟩ : Conflict).booking.uid =
      (⟨⟨"a", "z", 5, 6⟩, ⟨"b", "w", 5, 6⟩⟩ : Conflict).booking.uid :=
  conflictKey_pair_function.2 _ _ (by decide) (by decide) (by decide)

/-! ### C9 — mirror full-replace convergence and idempotence -/

/-- C9: one run of the full-replace reconciliation leaves exactly one
tagged event per target booking (regardless of the calendar's prior
contents), preserves foreign (untagged) events, and running it twice with
the same target yields the same resulting event set as running it once. -/
theorem sync_to_google_calendar_replace (cal : List CalEvent) (T : List Booking) :
    ((sync_to_google_calendar cal T).filter (fun e => hasSWTag e.summary) = T.map mkEvent) ∧
    ((sync_to_google_calendar cal T).filter (fun e => !(hasSWTag e.summary)) =
      cal.filter (fun e => !(hasSWTag e.summary))) ∧
    sync_to_google_calendar (sync_to_google_calendar cal T) T =
      sync_to_google_calendar cal T := by
  have htag : ∀ e ∈ T.map mkEvent, hasSWTag e.summary = true := by
    intro e he
    obtain ⟨b, _, rfl⟩ := List.mem_map.1 he
    exact hasSWTag_mkEvent b
  have hmapSelf : (T.map mkEvent).filter (fun e => hasSWTag e.summary) = T.map mkEvent :=
    List.filter_eq_self.mpr htag
  have hmapNil : (T.map mkEvent).filter (fun e => !(hasSWTag e.summary)) = [] := by
    refine List.filter_eq_nil_iff.mpr (fun e he => ?_)
    simp [htag e he]
  refine ⟨?_, ?_, ?_⟩
  · rw [sync_to_google_calendar, List.filter_append, filter_untagged_tagged, hmapSelf,
      List.nil_append]
  · rw [sync_to_google_calendar, List.filter_append, filter_untagged_idem, hmapNil,
      List.append_nil]
  · show ((sync_to_google_calendar cal T).filter (fun e => !(hasSWTag e.summary)))
        ++ T.map mkEvent = sync_to_google_calendar cal T
    rw [sync_to_google_calendar, List.filter_append, filter_untagged_idem, hmapNil,
      List.append_nil]

/-! ### C3 — Diff Engine correctness -/

/-- C3: the diff is exactly the set comparison against the prior
snapshot's uid sets.  A "new from A" alert fires precisely for the
bookings of current A whose identity is absent from the snapshot's
`airbnb_uids`, a "cancelled from A" alert fires precisely for the
identities in `airbnb_uids` that are absent from current A (and
symmetrically for source B); hence `new_from_A` is disjoint from the
prior uid set and `cancelled_from_A` is a subset of it, and the diff is
deterministic in its inputs (it is a pure function). -/
theorem diff_engine_correct (name : String) (state : StateMap) (ab bk : List Booking)
    (now : Nat) :
    (∀ b : Booking,
      Alert.newAirbnb name b ∈ (sync_apartment name state ab bk now).1 ↔
        b ∈ ab ∧ b.uid ∉ (getSnapshot state name).airbnb_uids) ∧
    (∀ b : Booking,
      Alert.newBookingCom name b ∈ (sync_apartment name state ab bk now).1 ↔
        b ∈ bk ∧ b.uid ∉ (getSnapshot state name).booking_uids) ∧
    (∀ u : String,
      Alert.cancelAirbnb name u ∈ (sync_apartment name state ab bk now).1 ↔
        u ∈ (getSnapshot state name).airbnb_uids ∧ u ∉ ab.map Booking.uid) ∧
    (∀ u : String,
      Alert.cancelBookingCom name u ∈ (sync_apartment name state ab bk now).1 ↔
        u ∈ (getSnapshot state name).booking_uids ∧ u ∉ bk.map Booking.uid) ∧
    (∀ b ∈ new_from_A ab (getSnapshot state name).airbnb_uids,
      b.uid ∉ (getSnapshot state name).airbnb_uids) ∧
    (∀ u ∈ cancelled_from_A (getSnapshot state name).airbnb_uids ab,
      u ∈ (getSnapshot state name).airbnb_uids) ∧
    sync_apartment name state ab bk now = sync_apartment name state ab bk now := by
  refine ⟨?_, ?_, ?_, ?_, ?_, ?_, rfl⟩
  case refine_5 =>
    intro b hb
    simp only [new_from_A, List.mem_filter, Bool.not_eq_true',
      contains_eq_false_iff] at hb
    exact hb.2
  case refine_6 =>
    intro u hu
    simp only [cancelled_from_A, List.mem_filter, List.mem_dedup] at hu
    exact hu.1
  all_goals
    intro x
    simp [sync_apartment, new_from_A, new_from_B, cancelled_from_A, cancelled_from_B,
      List.mem_filter, List.mem_map, List.mem_append, List.mem_dedup,
      contains_iff_mem, contains_eq_false_iff]

/-- C3 witness: the characterizations applied at a concrete cycle —
Scenario 3 of the spec: prior `airbnb_uids = ["a1"]`, current A fetch
empty, so identity `"a1"` is cancelled and nothing is new. -/
theorem diff_engine_correct_witness :
    Alert.cancelAirbnb "P" "a1" ∈
      (sync_apartment "P" [("P", wSnapA1)] [] [] 1).1 ∧
    ¬ (Alert.newAirbnb "P" ⟨"a1", "G", 0, 2⟩ ∈
      (sync_apartment "P" [("P", wSnapA1)] [] [] 1).1) :=
  ⟨((diff_engine_correct "P" [("P", wSnapA1)] [] [] 1).2.2.1 "a1").mpr
      (by decide),
   fun hmem =>
     by simpa using
       ((diff_engine_correct "P" [("P", wSnapA1)] [] [] 1).1 _).mp hmem⟩

/-! ### C4 — booking identity fallback -/

/-- C4 counterexample: the claim says two uid-less bookings with distinct
start dates have distinct identities in the diff; in the code the diff
compares raw uids, so both have identity `""`.  Concretely, after a cycle
that saw only the uid-less booking starting at day 0, a uid-less booking
starting at day 5 is not classified as new. -/
theorem diff_identity_no_fallback :
    (Booking.mk "" "G" 0 2).uid = (Booking.mk "" "H" 5 7).uid ∧
    (Booking.mk "" "H" 5 7).start ≠ (Booking.mk "" "G" 0 2).start ∧
    new_from_A [Booking.mk "" "H" 5 7]
      ((sync_apartment "P" [] [Booking.mk "" "G" 0 2] [] 0).2).airbnb_uids = [] := by
  decide

/-- C4 (amended): the identity used by the diff's new/cancelled
comparison is the booking's raw `uid` for every booking (uid-less
bookings therefore all share the empty identity); the deterministic
fallback derived from the start date (`sw-<start>`) is applied only when
generating the published iCal files (`generate_ical`). -/
theorem booking_identity_amended :
    (∀ (ab : List Booking) (prev : List String) (b : Booking),
      b ∈ new_from_A ab prev ↔ b ∈ ab ∧ b.uid ∉ prev) ∧
    (∀ (prev : List String) (ab : List Booking) (u : String),
      u ∈ cancelled_from_A prev ab ↔ u ∈ prev ∧ u ∉ ab.map Booking.uid) ∧
    (∀ b : Booking, b.uid ≠ "" → ical_uid b = b.uid) ∧
    (∀ b : Booking, b.uid = "" → ical_uid b = "sw-" ++ toString b.start) := by
  refine ⟨?_, ?_, ?_, ?_⟩
  · intro ab prev b
    simp [new_from_A, List.mem_filter, contains_eq_false_iff]
  · intro prev ab u
    simp [cancelled_from_A, List.mem_filter, List.mem_dedup, contains_eq_false_iff]
  · intro b h
    simp [ical_uid, h]
  · intro b h
    simp [ical_uid, h]

/-- C4 witness: the amended theorem applied at concrete bookings with and
without a uid. -/
theorem booking_identity_amended_witness :
    ical_uid ⟨"u1", "G", 3, 5⟩ = "u1" ∧
    ical_uid ⟨"", "G", 3, 5⟩ = "sw-" ++ toString (3 : Int) :=
  ⟨booking_identity_amended.2.2.1 ⟨"u1", "G", 3, 5⟩ (by decide),
   booking_identity_amended.2.2.2 ⟨"", "G", 3, 5⟩ rfl⟩

/-! ### C1 — at-most-once double-booking alerting -/

/-- C1: within one property cycle, a conflict whose identity is already
in the prior snapshot's `known_conflicts` never fires a double-booking
alert; a conflict whose identity is absent fires exactly one alert per
occurrence in the conflict list; every detected conflict's identity is
recorded in the returned snapshot; and consequently, on a next cycle
whose prior snapshot is the returned one, any conflict whose identity was
recorded this cycle (for example the same pair, both uids still present
and overlapping) is not re-alerted. -/
theorem double_booking_at_most_once (name : String) (state : StateMap)
    (ab bk : List Booking) (now : Nat) :
    (∀ c : Conflict, conflictKey c ∈ (getSnapshot state name).known_conflicts →
      Alert.doubleBooking name c ∉ (sync_apartment name state ab bk now).1) ∧
    (∀ c : Conflict, conflictKey c ∉ (getSnapshot state name).known_conflicts →
      ((sync_apartment name state ab bk now).1).count (Alert.doubleBooking name c) =
        (find_conflicts ab bk).count c) ∧
    (∀ c : Conflict, c ∈ find_conflicts ab bk →
      conflictKey c ∈ ((sync_apartment name state ab bk now).2).known_conflicts) ∧
    (∀ (state' : StateMap) (ab' bk' : List Booking) (now' : Nat) (c' : Conflict),
      getSnapshot state' name = (sync_apartment name state ab bk now).2 →
      conflictKey c' ∈ (find_conflicts ab bk).map conflictKey →
      Alert.doubleBooking name c' ∉ (sync_apartment name state' ab' bk' now').1) := by
  refine ⟨?_, ?_, ?_, ?_⟩
  · intro c hk hmem'
    exact ((doubleBooking_mem_iff name state ab bk now c).mp hmem').2 hk
  · intro c hk
    have hinj : Function.Injective (fun c : Conflict => Alert.doubleBooking name c) := by
      intro x y h
      simpa using h
    have hzero : ∀ (l : List Alert),
        (∀ a ∈ l, ∀ c0 : Conflict, a ≠ Alert.doubleBooking name c0) →
        l.count (Alert.doubleBooking name c) = 0 := by
      intro l hl
      refine List.count_eq_zero.mpr (fun hm => ?_)
      exact hl _ hm c rfl
    rw [sync_apartment]
    simp only [List.count_append]
    rw [hzero, hzero, hzero, hzero]
    · rw [List.count_map_of_injective _ _ hinj]
      rw [List.count_filter]
      · simp
      · simp [contains_eq_false_iff, hk]
    all_goals intro a ha c0; simp [List.mem_map] at ha; obtain ⟨x, _, rfl⟩ := ha; simp
  · intro c hc
    simp only [sync_apartment]
    exact List.mem_map_of_mem conflictKey hc
  · intro state' ab' bk' now' c' hsnap hk hmem'
    have h := ((doubleBooking_mem_iff name state' ab' bk' now' c').mp hmem').2
    rw [hsnap] at h
    exact h hk

/-- C1 witness: spec Scenario 2 — one conflicting pair `(a1, b1)`; with
the pair's identity already recorded in `known_conflicts` no alert fires,
and with an empty prior snapshot exactly one alert fires. -/
theorem double_booking_at_most_once_witness :
    Alert.doubleBooking "P" wC1 ∉
      (sync_apartment "P" [("P", wSnapKnown)] [wA1] [wB1] 1).1 ∧
    ((sync_apartment "P" [] [wA1] [wB1] 0).1).count (Alert.doubleBooking "P" wC1) =
      (find_conflicts [wA1] [wB1]).count wC1 :=
  ⟨(double_booking_at_most_once "P" [("P", wSnapKnown)] [wA1] [wB1] 1).1 _ (by decide),
   (double_booking_at_most_once "P" [] [wA1] [wB1] 0).2.1 _ (by decide)⟩

/-! ### C10 — conflict-memory wholesale replacement -/

/-- C10: the snapshot returned by a cycle sets `known_conflicts` to
exactly the identities of the conflicts detected in that cycle; any
identity whose pair does not recur is dropped, so if the same pair is
detected again in a later cycle (whose prior snapshot is this cycle's
output) it fires a fresh double-booking alert. -/
theorem known_conflicts_wholesale (name : String) (state : StateMap)
    (ab bk : List Booking) (now : Nat) :
    ((sync_apartment name state ab bk now).2).known_conflicts =
      (find_conflicts ab bk).map conflictKey ∧
    (∀ k : String, k ∉ (find_conflicts ab bk).map conflictKey →
      k ∉ ((sync_apartment name state ab bk now).2).known_conflicts) ∧
    (∀ (state' : StateMap) (ab' bk' : List Booking) (now' : Nat) (c' : Conflict),
      getSnapshot state' name = (sync_apartment name state ab bk now).2 →
      c' ∈ find_conflicts ab' bk' →
      conflictKey c' ∉ (find_conflicts ab bk).map conflictKey →
      Alert.doubleBooking name c' ∈ (sync_apartment name state' ab' bk' now').1) := by
  refine ⟨rfl, ?_, ?_⟩
  · intro k hk
    simpa [sync_apartment] using hk
  · intro state' ab' bk' now' c' hsnap hc' hk
    have hknown : conflictKey c' ∉ (getSnapshot state' name).known_conflicts := by
      rw [hsnap]
      simpa [sync_apartment] using hk
    exact (doubleBooking_mem_iff name state' ab' bk' now' c').mpr ⟨hc', hknown⟩

/-- C10 witness: a conflict alerted and recorded in cycle 1 disappears in
cycle 2 (feed B empty), and the same pair detected again in cycle 3 fires
a fresh alert because cycle 2's snapshot dropped the identity. -/
theorem known_conflicts_wholesale_witness :
    Alert.doubleBooking "P" wC1 ∈
      (sync_apartment "P"
        [("P", (sync_apartment "P" [("P", wSnapKnown)] [wA1] [] 1).2)] [wA1] [wB1] 2).1 :=
  (known_conflicts_wholesale "P" [("P", wSnapKnown)] [wA1] [] 1).2.2
    [("P", (sync_apartment "P" [("P", wSnapKnown)] [wA1] [] 1).2)]
    [wA1] [wB1] 2 wC1 (by decide) (by decide) (by decide)

/-! ### C2 — per-property failure isolation (sweep level) -/

/-- Splitting a sweep: if the first block of cycles runs to completion,
the whole sweep continues from the state it produced. -/
theorem run_sync_core_append_ok (xs ys : List PropCycle) (st st1 : StateMap)
    (h : (run_sync_core xs st).2 = Except.ok st1) :
    run_sync_core (xs ++ ys) st =
      ((run_sync_core xs st).1 ++ (run_sync_core ys st1).1, (run_sync_core ys st1).2) := by
  induction xs generalizing st with
  | nil =>
    simp only [run_sync_core] at h
    cases h
    simp [run_sync_core]
  | cons p rest ih =>
    obtain ⟨n, f⟩ := p
    simp only [run_sync_core, List.cons_append] at h ⊢
    cases hf : f (getSnapshot st n) with
    | error e =>
      rw [hf] at h
      simp at h
    | ok v =>
      obtain ⟨als, snap⟩ := v
      rw [hf] at h
      simp only at h
      simp [ih (setSnapshot st n snap) h, List.append_assoc]

/-- C2 counterexample: two configured properties; the first property's
cycle raises and the second's would succeed (one alert, one new
snapshot).  The sweep emits no alerts and persists nothing: the second
property is not processed and its snapshot is left unchanged, refuting
the claim that the exception is caught at the failing property's boundary
and the remaining properties still run. -/
theorem sweep_not_isolated :
    sweepAlerts [wCycleFail, wCycleOkB] [] = [] ∧
    persistedAfter [wCycleFail, wCycleOkB] [] = [] ∧
    getSnapshot (persistedAfter [wCycleFail, wCycleOkB] []) "p2" ≠ wSnapB := by
  refine ⟨rfl, rfl, by decide⟩

/-- C2 (amended): there is no handler at the property boundary — an
exception in one property's cycle aborts the sweep at that point: the
properties after it are not processed (their alerts never fire) and
`save_state` is skipped, so every property's persisted snapshot (not only
the failing property's) is left unchanged; the exception is caught one
level up, in `sync_loop`, so the Scheduler itself survives to the next
period. -/
theorem sweep_aborts_on_failure (pre post : List PropCycle) (n : String)
    (f : Snapshot → Except String (List Alert × Snapshot)) (st st1 : StateMap) (e : String)
    (hpre : (run_sync_core pre st).2 = Except.ok st1)
    (hf : f (getSnapshot st1 n) = Except.error e) :
    persistedAfter (pre ++ (n, f) :: post) st = st ∧
    sweepAlerts (pre ++ (n, f) :: post) st = sweepAlerts pre st := by
  have h := run_sync_core_append_ok pre ((n, f) :: post) st st1 hpre
  have h2 : run_sync_core ((n, f) :: post) st1 = ([], Except.error e) := by
    simp [run_sync_core, hf]
  rw [h2] at h
  exact ⟨by simp [persistedAfter, h], by simp [sweepAlerts, h]⟩

/-- C2 witness: the amended theorem at a concrete sweep — one successful
property followed by a failing one. -/
theorem sweep_aborts_on_failure_witness :
    persistedAfter ([wCyclePre] ++ ("b", fun _ => Except.error "x") :: []) [] = [] ∧
    sweepAlerts ([wCyclePre] ++ ("b", fun _ => Except.error "x") :: []) [] =
      sweepAlerts [wCyclePre] [] :=
  sweep_aborts_on_failure [wCyclePre] [] "b" (fun _ => Except.error "x")
    [] (setSnapshot [] "a" wSnapA1) "x" rfl rfl

/-! ### C6 — snapshot atomicity on failure -/

/-- C6: if a sweep terminates with an unhandled exception the persisted
state is exactly the previous one (every property, in particular the
failing one, reads its previous snapshot next cycle); if the sweep
completes, the whole new state is persisted at once; and a property's
persisted snapshot can differ from its previous value only when the sweep
(hence that property's own cycle) ran to completion. -/
theorem snapshot_only_on_success (cycles : List PropCycle) (st : StateMap) (p : String) :
    (∀ e, (run_sync_core cycles st).2 = Except.error e → persistedAfter cycles st = st) ∧
    (∀ st', (run_sync_core cycles st).2 = Except.ok st' → persistedAfter cycles st = st') ∧
    (getSnapshot (persistedAfter cycles st) p ≠ getSnapshot st p →
      ∃ st', (run_sync_core cycles st).2 = Except.ok st') := by
  refine ⟨?_, ?_, ?_⟩
  · intro e he
    simp [persistedAfter, he]
  · intro st' hok
    simp [persistedAfter, hok]
  · intro hne
    cases h : (run_sync_core cycles st).2 with
    | ok st' => exact ⟨st', rfl⟩
    | error e => exact absurd (by simp [persistedAfter, h]) hne

/-- C6 witness: a sweep whose only property's cycle raises leaves the
persisted state file exactly as it was. -/
theorem snapshot_only_on_success_witness :
    persistedAfter [("q", fun _ => Except.error "boom")] [("q", wSnapKnown)] =
      [("q", wSnapKnown)] :=
  (snapshot_only_on_success [("q", fun _ => Except.error "boom")]
      [("q", wSnapKnown)] "q").1 "boom" rfl

/-! ### C8 — fetch-failure fallback -/

/-- C8: whenever a feed fetch fails — on either platform — `fetch_ical`
returns the empty booking list instead of raising past the property
boundary and fires the distinct feed-broken alert for that property and
platform (the configured names are non-empty, so the
`if apt_name and platform` guard passes); and in each failure combination
of a property's cycle — Airbnb fetch fails, Booking.com fetch fails, or
both fail — the rest of the cycle (diff, both mirror syncs, alerting,
snapshot return) still runs with the empty list substituted for each
broken source. -/
theorem fetch_failure_fallback (name : String) (state : StateMap) (msg msg' : String)
    (ab bk : List Booking) (airbnbCal googleCal : List CalEvent) (now : Nat)
    (hname : name ≠ "") :
    (∀ platform : String, platform ≠ "" →
      fetch_ical (Except.error msg) name platform =
        ([], [Alert.feedBroken name platform])) ∧
    sync_apartment_full name state (Except.error msg) (Except.ok bk) airbnbCal googleCal now =
      (Alert.feedBroken name "Airbnb" :: (sync_apartment name state [] bk now).1,
       (sync_apartment name state [] bk now).2,
       sync_to_google_calendar airbnbCal bk,
       sync_to_google_calendar googleCal []) ∧
    sync_apartment_full name state (Except.ok ab) (Except.error msg') airbnbCal googleCal now =
      (Alert.feedBroken name "Booking.com" :: (sync_apartment name state ab [] now).1,
       (sync_apartment name state ab [] now).2,
       sync_to_google_calendar airbnbCal [],
       sync_to_google_calendar googleCal ab) ∧
    sync_apartment_full name state (Except.error msg) (Except.error msg') airbnbCal googleCal
        now =
      (Alert.feedBroken name "Airbnb" :: Alert.feedBroken name "Booking.com" ::
          (sync_apartment name state [] [] now).1,
       (sync_apartment name state [] [] now).2,
       sync_to_google_calendar airbnbCal [],
       sync_to_google_calendar googleCal []) := by
  refine ⟨?_, ?_, ?_, ?_⟩
  · intro platform hplat
    simp [fetch_ical, hname, hplat]
  · simp [sync_apartment_full, fetch_ical, hname]
  · simp [sync_apartment_full, fetch_ical, hname]
  · simp [sync_apartment_full, fetch_ical, hname]

/-- C8 witness: the fallback at a concrete configured property, for both
platforms' fetch sites. -/
theorem fetch_failure_fallback_witness :
    fetch_ical (Except.error "timeout") "Szasz 6" "Airbnb" =
      ([], [Alert.feedBroken "Szasz 6" "Airbnb"]) ∧
    fetch_ical (Except.error "timeout") "Szasz 6" "Booking.com" =
      ([], [Alert.feedBroken "Szasz 6" "Booking.com"]) :=
  ⟨(fetch_failure_fallback "Szasz 6" [] "timeout" "e" [] [] [] [] 0 (by decide)).1
      "Airbnb" (by decide),
   (fetch_failure_fallback "Szasz 6" [] "timeout" "e" [] [] [] [] 0 (by decide)).1
      "Booking.com" (by decide)⟩

end SyncWatch
